import Mathlib

/-
  Formal model of the BLE scan-instance service layer of system/bt:
  the advertising-data record trimmer, the scan-instance registry and
  its asynchronous registration protocol, scan activation, report
  delivery, and the opcode-keyed HCI command dispatcher.

  Only the unit test (service/test/low_energy_scanner_unittest.cc) and
  the dispatcher's header (vendor_libs/test_vendor_lib/include/hci_handler.h)
  are present in the sources; the implementations (low_energy_scanner.cc,
  hci_handler.cc) are absent, so the operations below are modelled from
  the system specification, faithful to its wording, and validated
  against the concrete scenarios the unit tests record.
-/

namespace SystemBt

/-! ### Advertising-data parser (spec section 4.3) -/

/-- Modelled from the spec: the loop of the advertising-data `Trim`
routine of low_energy_scanner.cc (implementation absent from the
sources).  Reads the length byte at `offset`; a zero length byte stops
the scan and yields the bytes before it, a record whose declared length
overruns the buffer yields the whole buffer, exhausting the buffer
without a terminator yields the whole buffer.  `fuel` only bounds the
iteration count; `trim` supplies more than enough. -/
def trimLoop (data : List Nat) : Nat → Nat → List Nat
  | 0, _ => data
  | fuel + 1, offset =>
    match data.drop offset with
    | [] => data
    | l :: rest =>
      if l = 0 then data.take offset
      else if rest.length < l then data
      else trimLoop data fuel (offset + 1 + l)

/-- Modelled from the spec: `Trim(rawAdvertisingData)` — scan
length-prefixed records from offset 0. -/
def trim (data : List Nat) : List Nat :=
  trimLoop data (data.length + 1) 0

/-- Offsets the record scan can reach from offset 0 by stepping over
complete, non-terminator records. -/
inductive Reach (data : List Nat) : Nat → Prop
  | zero : Reach data 0
  | step (offset l : Nat) (rest : List Nat) :
      Reach data offset → data.drop offset = l :: rest → l ≠ 0 →
      l ≤ rest.length → Reach data (offset + 1 + l)

/-- The 62-byte stream of alternating 0x01, 0x00 pairs used by the
ScanRecord unit test (kTestRecord2). -/
def rec62 : List Nat :=
  List.flatten (List.replicate 31 [1, 0])

/-! ### Scan-instance registry and scanner (spec sections 3, 4.1, 4.2) -/

/-- Immediate status reported by the controller interface
(bt_status_t collapsed to the success/failure distinction the
specification uses). -/
inductive BtStatus
  | success
  | fail
deriving DecidableEq

/-- One registered scan client.  Application identifiers (128-bit UUIDs,
opaque and equality-comparable) and delegate references are modelled as
naturals.  Field names follow the LowEnergyScanner members the test
exercises: GetInstanceId, GetAppIdentifier, the active flag, and the
delegate reference. -/
structure ScannerInstance where
  scanner_id : Nat
  app_identifier : Nat
  scan_started : Bool
  delegate : Option Nat
deriving DecidableEq

/-- A call issued to the controller scan interface (the mock handler's
RegisterScanner / UnregisterScanner / Scan entry points). -/
inductive ControllerCall
  | registerScanner (uuid : Nat)
  | unregisterScanner (scannerId : Nat)
  | scan (enable : Bool)
deriving DecidableEq

/-- One invocation of a caller's stored completion callback:
(status, identifier, optional instance whose ownership transfers to the
callback). -/
inductive CallbackEvent
  | invoke (cb : Nat) (status : BtStatus) (uuid : Nat)
      (inst : Option ScannerInstance)
deriving DecidableEq

/-- Registry state: the PendingRegistration map, keyed by application
identifier, each entry storing the caller's completion callback
(callbacks modelled as naturals). -/
structure Registry where
  pending : List (Nat × Nat)
deriving DecidableEq

/-- Looks up the stored completion callback of the PendingRegistration
keyed by `uuid`, if any. -/
def lookupPending (r : Registry) (uuid : Nat) : Option Nat :=
  (r.pending.find? (fun p => p.1 == uuid)).map Prod.snd

/-- Removes the PendingRegistration keyed by `uuid`. -/
def removePending (r : Registry) (uuid : Nat) : Registry :=
  ⟨r.pending.filter (fun p => p.1 != uuid)⟩

/-- Outcome of one Register call: the boolean returned to the caller,
the registry state afterwards, the controller calls issued, and the
callback invocations fired during the call. -/
structure RegisterResult where
  accepted : Bool
  state : Registry
  controllerCalls : List ControllerCall
  callbackEvents : List CallbackEvent
deriving DecidableEq

/-- Modelled from the spec: LowEnergyScannerFactory::RegisterInstance
(implementation absent from the sources).  A duplicate pending
identifier is rejected without contacting the controller; otherwise the
controller's registration primitive is invoked synchronously and its
immediate status (`halStatus`) decides whether a PendingRegistration is
created. -/
def registerInstance (r : Registry) (uuid cb : Nat) (halStatus : BtStatus) :
    RegisterResult :=
  if (lookupPending r uuid).isSome then ⟨false, r, [], []⟩
  else
    match halStatus with
    | .fail => ⟨false, r, [.registerScanner uuid], []⟩
    | .success => ⟨true, ⟨r.pending ++ [(uuid, cb)]⟩,
        [.registerScanner uuid], []⟩

/-- Outcome of one completion delivery: the registry state afterwards
and the callback invocations fired. -/
structure CompleteResult where
  state : Registry
  callbackEvents : List CallbackEvent
deriving DecidableEq

/-- Modelled from the spec: the registration-complete path
(RegisterScannerCallback in low_energy_scanner.cc, absent from the
sources).  A completion with no matching pending entry is discarded;
a matching one removes the entry and fires the stored callback once —
with a fresh inactive instance on success, with no instance on
failure. -/
def onRegistrationComplete (r : Registry) (status : BtStatus)
    (scannerId uuid : Nat) : CompleteResult :=
  match lookupPending r uuid with
  | none => ⟨r, []⟩
  | some cb =>
    match status with
    | .success =>
        ⟨removePending r uuid,
         [.invoke cb .success uuid (some ⟨scannerId, uuid, false, none⟩)]⟩
    | .fail => ⟨removePending r uuid, [.invoke cb .fail uuid none]⟩

/-- Outcome of one StartScan call: the boolean returned, the instance
state afterwards, and the controller calls issued. -/
structure StartScanResult where
  ok : Bool
  inst : ScannerInstance
  controllerCalls : List ControllerCall
deriving DecidableEq

/-- Modelled from the spec: LowEnergyScanner::StartScan (implementation
absent from the sources).  Queries the adapter-enabled oracle first and
returns false with no controller interaction when disabled; otherwise
forwards the scan-enable request, marks the instance active on success,
and returns the controller call's status.  Settings and filters are
pass-through and carried opaquely. -/
def startScan (inst : ScannerInstance) (settings : Nat) (filters : List Nat)
    (adapterEnabled : Bool) (halStatus : BtStatus) : StartScanResult :=
  if adapterEnabled = false then ⟨false, inst, []⟩
  else
    match halStatus with
    | .success => ⟨true, { inst with scan_started := true }, [.scan true]⟩
    | .fail => ⟨false, inst, [.scan true]⟩

/-- Modelled from the spec: LowEnergyScanner::SetDelegate — atomically
replaces the delegate reference. -/
def setDelegate (inst : ScannerInstance) (d : Option Nat) : ScannerInstance :=
  { inst with delegate := d }

/-- Modelled from the spec: report delivery (the ScanResultCallback path
of low_energy_scanner.cc, absent from the sources).  Returns the
delegate invocation fired for the report, if any: a report arriving
while the instance is inactive, or while no delegate is attached, is
dropped. -/
def deliverScanResult (inst : ScannerInstance) (result : Nat) :
    Option (Nat × Nat) :=
  if inst.scan_started then
    match inst.delegate with
    | some d => some (d, result)
    | none => none
  else none

/-- Outcome of releasing an instance: the remaining live instances and
the controller calls issued.  No status is returned to the releasing
caller. -/
structure ReleaseResult where
  live : List ScannerInstance
  controllerCalls : List ControllerCall
deriving DecidableEq

/-- Modelled from the spec: the LowEnergyScanner destructor / registry
Unregister path (implementation absent from the sources).  Releasing a
live instance issues one unregistration request for its handle and
removes the instance from the bookkeeping; the controller's immediate
status (`halStatus`) is neither surfaced nor allowed to affect the
outcome. -/
def releaseInstance (live : List ScannerInstance) (inst : ScannerInstance)
    (halStatus : BtStatus) : ReleaseResult :=
  ⟨live.filter (fun i => i != inst), [.unregisterScanner inst.scanner_id]⟩

/-! ### HCI command dispatcher (spec section 4.4, hci_handler.h) -/

/-- An inbound command packet: opcode plus argument bytes. -/
structure CommandPacket where
  opcode : Nat
  args : List Nat
deriving DecidableEq

/-- Dispatcher state: the opcode-to-callback table (HciHandler's
commands_ map; callbacks modelled as naturals, keys unique). -/
structure HciHandler where
  commands : List (Nat × Nat)
deriving DecidableEq

/-- Looks up the handler registered for `opcode`, if any. -/
def lookupHandler (h : HciHandler) (opcode : Nat) : Option Nat :=
  (h.commands.find? (fun q => q.1 == opcode)).map Prod.snd

/-- Modelled from the spec: HciHandler::RegisterControllerCommand
(implementation absent from the sources; declared in hci_handler.h) —
installs the handler for `opcode`, replacing any prior one. -/
def registerControllerCommand (h : HciHandler) (opcode cb : Nat) :
    HciHandler :=
  ⟨h.commands.filter (fun q => q.1 != opcode) ++ [(opcode, cb)]⟩

/-- Outcome of one dispatch: the handler invocation fired with the
packet's argument bytes, if any, and whether the packet was released
after dispatch. -/
structure DispatchResult where
  invoked : Option (Nat × List Nat)
  released : Bool
deriving DecidableEq

/-- Modelled from the spec: HciHandler::HandleCommand (implementation
absent from the sources; declared in hci_handler.h) — extracts the
opcode, invokes the registered handler with the argument bytes if one
exists, no-ops otherwise, and releases the packet in either case. -/
def handleCommand (h : HciHandler) (packet : CommandPacket) :
    DispatchResult :=
  match lookupHandler h packet.opcode with
  | none => ⟨none, true⟩
  | some cb => ⟨some (cb, packet.args), true⟩

/-! ### Supporting lemmas -/

theorem trimLoop_drop_nil (data : List Nat) (fuel offset : Nat)
    (h : data.drop offset = []) : trimLoop data fuel offset = data := by
  cases fuel with
  | zero => rfl
  | succ f => simp [trimLoop, h]

theorem trimLoop_term (data : List Nat) (fuel offset : Nat) (rest : List Nat)
    (h : data.drop offset = 0 :: rest) :
    trimLoop data (fuel + 1) offset = data.take offset := by
  simp [trimLoop, h]

theorem trimLoop_malformed (data : List Nat) (fuel offset l : Nat)
    (rest : List Nat) (h : data.drop offset = l :: rest) (hl : l ≠ 0)
    (hshort : rest.length < l) : trimLoop data (fuel + 1) offset = data := by
  simp [trimLoop, h, hl, hshort]

theorem trimLoop_step (data : List Nat) (fuel offset l : Nat)
    (rest : List Nat) (h : data.drop offset = l :: rest) (hl : l ≠ 0)
    (hlen : l ≤ rest.length) :
    trimLoop data (fuel + 1) offset = trimLoop data fuel (offset + 1 + l) := by
  simp [trimLoop, h, hl, Nat.not_lt.mpr hlen]

theorem trimLoop_fuel (data : List Nat) :
    ∀ fuelA fuelB offset, data.length < fuelA + offset →
      data.length < fuelB + offset →
      trimLoop data fuelA offset = trimLoop data fuelB offset := by
  intro fuelA
  induction fuelA with
  | zero =>
    intro fuelB offset h1 h2
    have hnil : data.drop offset = [] := List.drop_eq_nil_of_le (by omega)
    rw [trimLoop_drop_nil data 0 offset hnil,
      trimLoop_drop_nil data fuelB offset hnil]
  | succ f ih =>
    intro fuelB offset h1 h2
    cases fuelB with
    | zero =>
      have hnil : data.drop offset = [] := List.drop_eq_nil_of_le (by omega)
      rw [trimLoop_drop_nil data (f + 1) offset hnil,
        trimLoop_drop_nil data 0 offset hnil]
    | succ g =>
      cases hd : data.drop offset with
      | nil =>
        rw [trimLoop_drop_nil data (f + 1) offset hd,
          trimLoop_drop_nil data (g + 1) offset hd]
      | cons l rest =>
        by_cases hl : l = 0
        · subst hl
          rw [trimLoop_term data f offset rest hd,
            trimLoop_term data g offset rest hd]
        · by_cases hshort : rest.length < l
          · rw [trimLoop_malformed data f offset l rest hd hl hshort,
              trimLoop_malformed data g offset l rest hd hl hshort]
          · have hlen : l ≤ rest.length := Nat.not_lt.mp hshort
            rw [trimLoop_step data f offset l rest hd hl hlen,
              trimLoop_step data g offset l rest hd hl hlen]
            exact ih g (offset + 1 + l) (by omega) (by omega)

theorem trim_reach (data : List Nat) (offset : Nat) (h : Reach data offset) :
    ∀ fuel, data.length < fuel + offset → trim data = trimLoop data fuel offset := by
  induction h with
  | zero =>
    intro fuel hf
    exact trimLoop_fuel data (data.length + 1) fuel 0 (by omega) (by omega)
  | step off l rest hr hd hl hlen ih =>
    intro fuel hf
    have hlen2 : data.length - off = rest.length + 1 := by
      have := congrArg List.length hd
      rwa [List.length_drop, List.length_cons] at this
    calc trim data = trimLoop data (data.length - off + 1) off :=
          ih (data.length - off + 1) (by omega)
      _ = trimLoop data (data.length - off) (off + 1 + l) :=
          trimLoop_step data (data.length - off) off l rest hd hl hlen
      _ = trimLoop data fuel (off + 1 + l) :=
          trimLoop_fuel data (data.length - off) fuel (off + 1 + l)
            (by omega) (by omega)

theorem trim_of_terminator (data : List Nat) (offset : Nat) (rest : List Nat)
    (h : Reach data offset) (hd : data.drop offset = 0 :: rest) :
    trim data = data.take offset := by
  have hlen2 : data.length - offset = rest.length + 1 := by
    have := congrArg List.length hd
    rwa [List.length_drop, List.length_cons] at this
  rw [trim_reach data offset h (data.length - offset + 1) (by omega)]
  exact trimLoop_term data (data.length - offset) offset rest hd

theorem trim_of_malformed (data : List Nat) (offset l : Nat) (rest : List Nat)
    (h : Reach data offset) (hd : data.drop offset = l :: rest) (hl : l ≠ 0)
    (hshort : rest.length < l) : trim data = data := by
  have hlen2 : data.length - offset = rest.length + 1 := by
    have := congrArg List.length hd
    rwa [List.length_drop, List.length_cons] at this
  rw [trim_reach data offset h (data.length - offset + 1) (by omega)]
  exact trimLoop_malformed data (data.length - offset) offset l rest hd hl hshort

theorem trim_of_exhausted (data : List Nat) (offset : Nat)
    (h : Reach data offset) (hd : data.drop offset = []) : trim data = data := by
  rw [trim_reach data offset h (data.length + 1) (by omega)]
  exact trimLoop_drop_nil data (data.length + 1) offset hd

/-- Claim C1: the advertising-data parser Trim, scanning length-prefixed
records from offset 0, returns the bytes before a zero length byte when
one is reached; returns the whole buffer unchanged when a record's
declared length exceeds the remaining bytes or when the buffer is
exhausted without a terminator; and on the three test vectors returns
[0x02,0x01,0x00], [], and the 62-byte alternating stream unchanged. -/
theorem c1_trim_behavior :
    (∀ data offset rest, Reach data offset → data.drop offset = 0 :: rest →
      trim data = data.take offset) ∧
    (∀ data offset l rest, Reach data offset → data.drop offset = l :: rest →
      l ≠ 0 → rest.length < l → trim data = data) ∧
    (∀ data offset, Reach data offset → data.drop offset = [] →
      trim data = data) ∧
    trim [2, 1, 0, 0] = [2, 1, 0] ∧ trim [0] = [] ∧ trim rec62 = rec62 := by
  refine ⟨trim_of_terminator, trim_of_malformed, trim_of_exhausted, ?_, ?_, ?_⟩
  · decide
  · decide
  · decide

/-- Claim C1 witness: the three general branches applied at concrete
buffers. -/
theorem c1_trim_behavior_witness :
    trim [0, 9] = List.take 0 [0, 9] ∧ trim [5] = [5] ∧
    trim [1, 1] = [1, 1] :=
  ⟨c1_trim_behavior.1 [0, 9] 0 [9] Reach.zero rfl,
   c1_trim_behavior.2.1 [5] 0 5 [] Reach.zero rfl (by decide) (by decide),
   c1_trim_behavior.2.2.1 [1, 1] 2
     (Reach.step 0 1 [1] Reach.zero rfl (by decide) (by decide)) rfl⟩

theorem find_filter_self (l : List (Nat × Nat)) (u : Nat) :
    (l.filter (fun p => p.1 != u)).find? (fun p => p.1 == u) = none := by
  induction l with
  | nil => rfl
  | cons a t ih =>
    by_cases ha : a.1 = u
    · simp [List.filter_cons, ha, ih]
    · simp [List.filter_cons, List.find?_cons, ha, ih]

theorem find_filter_other (l : List (Nat × Nat)) (u v : Nat) (hvu : v ≠ u) :
    (l.filter (fun p => p.1 != u)).find? (fun p => p.1 == v) =
      l.find? (fun p => p.1 == v) := by
  induction l with
  | nil => rfl
  | cons a t ih =>
    have huv : u ≠ v := Ne.symm hvu
    by_cases ha : a.1 = u
    · have hav : a.1 ≠ v := by omega
      simp [List.filter_cons, List.find?_cons, ha, hav, huv, ih]
    · by_cases hav : a.1 = v
      · simp [List.filter_cons, List.find?_cons, ha, hav, hvu, huv]
      · simp [List.filter_cons, List.find?_cons, ha, hav, hvu, huv, ih]

theorem lookupPending_remove_self (r : Registry) (u : Nat) :
    lookupPending (removePending r u) u = none := by
  simp [lookupPending, removePending, find_filter_self]

theorem lookupPending_remove_other (r : Registry) (u v : Nat) (hvu : v ≠ u) :
    lookupPending (removePending r u) v = lookupPending r v := by
  simp [lookupPending, removePending, find_filter_other r.pending u v hvu]

theorem lookupPending_none_notMem (r : Registry) (u : Nat)
    (h : lookupPending r u = none) : u ∉ r.pending.map Prod.fst := by
  intro hmem
  rw [List.mem_map] at hmem
  obtain ⟨p, hp, hpu⟩ := hmem
  rw [lookupPending, Option.map_eq_none'] at h
  have hfalse := List.find?_eq_none.mp h p hp
  simp [hpu] at hfalse

/-! ### Claims -/

/-- Claim C2: at most one PendingRegistration exists per application
identifier — a Register call while one is already pending for the same
identifier returns false immediately, leaves the registry unchanged and
invokes no controller primitive and no callback; and Register preserves
uniqueness of the pending identifiers. -/
theorem c2_pending_unique (r : Registry) (uuid cb : Nat) (st : BtStatus) :
    ((lookupPending r uuid).isSome = true →
      registerInstance r uuid cb st = ⟨false, r, [], []⟩) ∧
    ((r.pending.map Prod.fst).Nodup →
      ((registerInstance r uuid cb st).state.pending.map Prod.fst).Nodup) := by
  constructor
  · intro h
    simp [registerInstance, h]
  · intro hnd
    by_cases h : (lookupPending r uuid).isSome
    · simpa [registerInstance, h] using hnd
    · have hnone : lookupPending r uuid = none :=
        Option.not_isSome_iff_eq_none.mp h
      have hnotMem := lookupPending_none_notMem r uuid hnone
      cases st with
      | fail => simpa [registerInstance, hnone] using hnd
      | success =>
        have hgoal : (List.map Prod.fst r.pending).Nodup ∧
            uuid ∉ List.map Prod.fst r.pending := ⟨hnd, hnotMem⟩
        simpa [registerInstance, hnone, List.nodup_append] using hgoal

/-- Claim C2 witness: a second Register for the pending identifier 5 is
rejected with no controller call, and registering into an empty registry
keeps the pending identifiers unique. -/
theorem c2_pending_unique_witness :
    registerInstance ⟨[(5, 0)]⟩ 5 1 BtStatus.success =
      ⟨false, ⟨[(5, 0)]⟩, [], []⟩ ∧
    ((registerInstance ⟨[]⟩ 5 1 BtStatus.success).state.pending.map
      Prod.fst).Nodup :=
  ⟨(c2_pending_unique ⟨[(5, 0)]⟩ 5 1 BtStatus.success).1 (by decide),
   (c2_pending_unique ⟨[]⟩ 5 1 BtStatus.success).2 (by decide)⟩

/-- Claim C3: a completion matching a PendingRegistration removes the
entry and fires the stored callback exactly once — on success with a
fresh inactive instance carrying exactly the supplied handle and
identifier, on failure with a failure result and no instance — while a
pending registration for any other identifier is unaffected. -/
theorem c3_completion_matched (r : Registry) (uuid cb scannerId : Nat)
    (h : lookupPending r uuid = some cb) :
    (onRegistrationComplete r .success scannerId uuid).callbackEvents =
      [CallbackEvent.invoke cb .success uuid
        (some ⟨scannerId, uuid, false, none⟩)] ∧
    (onRegistrationComplete r .fail scannerId uuid).callbackEvents =
      [CallbackEvent.invoke cb .fail uuid none] ∧
    lookupPending (onRegistrationComplete r .success scannerId uuid).state
      uuid = none ∧
    lookupPending (onRegistrationComplete r .fail scannerId uuid).state
      uuid = none ∧
    (∀ other, other ≠ uuid →
      lookupPending (onRegistrationComplete r .success scannerId uuid).state
          other = lookupPending r other ∧
      lookupPending (onRegistrationComplete r .fail scannerId uuid).state
          other = lookupPending r other) := by
  refine ⟨?_, ?_, ?_, ?_, ?_⟩
  · simp [onRegistrationComplete, h]
  · simp [onRegistrationComplete, h]
  · simp [onRegistrationComplete, h, lookupPending_remove_self]
  · simp [onRegistrationComplete, h, lookupPending_remove_self]
  · intro other hother
    constructor
    · simp [onRegistrationComplete, h, lookupPending_remove_other r uuid other hother]
    · simp [onRegistrationComplete, h, lookupPending_remove_other r uuid other hother]

/-- Claim C3 witness: the matched-completion theorem applied to a
registry with identifier 5 pending under callback 0 and handle 2. -/
theorem c3_completion_matched_witness :
    (onRegistrationComplete ⟨[(5, 0)]⟩ .success 2 5).callbackEvents =
      [CallbackEvent.invoke 0 .success 5 (some ⟨2, 5, false, none⟩)] :=
  (c3_completion_matched ⟨[(5, 0)]⟩ 5 0 2 rfl).1

/-- Claim C4: a completion whose identifier matches no
PendingRegistration is discarded — no callback fires, no instance is
created, and the registry state is unchanged. -/
theorem c4_unmatched_discarded (r : Registry) (status : BtStatus)
    (scannerId uuid : Nat) (h : lookupPending r uuid = none) :
    onRegistrationComplete r status scannerId uuid = ⟨r, []⟩ := by
  cases status <;> simp [onRegistrationComplete, h]

/-- Claim C4 witness: a completion for the unknown identifier 7 leaves a
registry with only identifier 5 pending untouched and fires nothing. -/
theorem c4_unmatched_discarded_witness :
    onRegistrationComplete ⟨[(5, 0)]⟩ .fail 2 7 = ⟨⟨[(5, 0)]⟩, []⟩ :=
  c4_unmatched_discarded ⟨[(5, 0)]⟩ .fail 2 7 rfl

/-- Claim C5: when the controller's registration primitive reports
immediate failure, Register returns false, creates no
PendingRegistration (the registry is unchanged), fires no callback, and
a subsequent Register with the same identifier proceeds (is accepted
when the controller accepts it). -/
theorem c5_immediate_failure (r : Registry) (uuid cb : Nat)
    (h : lookupPending r uuid = none) :
    registerInstance r uuid cb .fail =
      ⟨false, r, [ControllerCall.registerScanner uuid], []⟩ ∧
    (registerInstance (registerInstance r uuid cb .fail).state uuid cb
      .success).accepted = true := by
  constructor
  · simp [registerInstance, h]
  · simp [registerInstance, h]

/-- Claim C5 witness: the immediate-failure theorem applied to the empty
registry and identifier 5. -/
theorem c5_immediate_failure_witness :
    registerInstance ⟨[]⟩ 5 1 .fail =
      ⟨false, ⟨[]⟩, [ControllerCall.registerScanner 5], []⟩ :=
  (c5_immediate_failure ⟨[]⟩ 5 1 rfl).1

/-- Claim C6: StartScan with the adapter oracle reporting disabled
returns false and issues no controller call of any kind. -/
theorem c6_start_scan_disabled (inst : ScannerInstance) (settings : Nat)
    (filters : List Nat) (st : BtStatus) :
    startScan inst settings filters false st = ⟨false, inst, []⟩ := by
  simp [startScan]

/-- Claim C7: a scan report arriving while the instance is inactive, or
after its delegate was cleared, produces no delegate invocation — the
report is dropped. -/
theorem c7_report_dropped (inst : ScannerInstance) (result : Nat)
    (h : inst.scan_started = false ∨ inst.delegate = none) :
    deliverScanResult inst result = none := by
  rcases h with h | h
  · simp [deliverScanResult, h]
  · unfold deliverScanResult
    rw [h]
    split <;> rfl

/-- Claim C7 witness: an inactive instance drops report 9, and an active
instance with the delegate cleared drops it too. -/
theorem c7_report_dropped_witness :
    deliverScanResult ⟨2, 5, false, some 3⟩ 9 = none ∧
    deliverScanResult ⟨2, 5, true, none⟩ 9 = none :=
  ⟨c7_report_dropped ⟨2, 5, false, some 3⟩ 9 (Or.inl rfl),
   c7_report_dropped ⟨2, 5, true, none⟩ 9 (Or.inr rfl)⟩

/-- Claim C8: releasing a live instance issues exactly one
unregistration request, carrying the instance's handle; the controller's
status does not affect the outcome (it is not surfaced), and the
instance leaves the bookkeeping regardless. -/
theorem c8_release_unregisters (live : List ScannerInstance)
    (inst : ScannerInstance) (st : BtStatus) :
    (releaseInstance live inst st).controllerCalls =
      [ControllerCall.unregisterScanner inst.scanner_id] ∧
    releaseInstance live inst st = releaseInstance live inst .success ∧
    inst ∉ (releaseInstance live inst st).live := by
  refine ⟨rfl, rfl, ?_⟩
  simp [releaseInstance, List.mem_filter]

/-- Claim C9: dispatch extracts the opcode; with no handler registered
for it, no handler is invoked and the call completes as a no-op; with a
handler registered, it is invoked with the packet's argument bytes; the
packet is released after dispatch in either case. -/
theorem c9_dispatch (h : HciHandler) (packet : CommandPacket) :
    (lookupHandler h packet.opcode = none →
      handleCommand h packet = ⟨none, true⟩) ∧
    (∀ cb, lookupHandler h packet.opcode = some cb →
      handleCommand h packet = ⟨some (cb, packet.args), true⟩) ∧
    (handleCommand h packet).released = true := by
  refine ⟨?_, ?_, ?_⟩
  · intro hnone
    simp [handleCommand, hnone]
  · intro cb hcb
    simp [handleCommand, hcb]
  · unfold handleCommand
    split <;> rfl

/-- Claim C9 witness: the dispatcher with an empty table no-ops on
opcode 1, and with callback 7 registered for opcode 1 invokes it with
the argument bytes. -/
theorem c9_dispatch_witness :
    handleCommand ⟨[]⟩ ⟨1, [2, 3]⟩ = ⟨none, true⟩ ∧
    handleCommand ⟨[(1, 7)]⟩ ⟨1, [2, 3]⟩ = ⟨some (7, [2, 3]), true⟩ :=
  ⟨(c9_dispatch ⟨[]⟩ ⟨1, [2, 3]⟩).1 rfl,
   (c9_dispatch ⟨[(1, 7)]⟩ ⟨1, [2, 3]⟩).2.1 7 rfl⟩

/-- Claim C10 counterexample: with the adapter enabled, a single
StartScan on a live instance does not issue two scan-toggle requests —
at the concrete instance (handle 2, identifier 7) it issues one. -/
theorem c10_two_toggles_counterexample :
    ¬ (startScan ⟨2, 7, false, none⟩ 0 [] true .success).controllerCalls.length
        = 2 := by
  decide

/-- Claim C10 amended: with the adapter enabled, a single StartScan
issues exactly one scan-toggle request to the controller — the enable
toggle — whatever status the controller reports. -/
theorem c10_single_toggle (inst : ScannerInstance) (settings : Nat)
    (filters : List Nat) (st : BtStatus) :
    (startScan inst settings filters true st).controllerCalls =
      [ControllerCall.scan true] := by
  cases st <;> simp [startScan]

end SystemBt
